import Mathlib

/-!
# Photo upload / delete glue (`static/js/photos.js`, `static/js/tiny.js`)

A shallow embedding of the page script.  The page is a record holding the rendered
`.photo-container` elements (in document order), the hidden `#photo_list` field, the
`formSubmitted` flag and logs of the externally visible effects (requests handed to
`apiRequest`, `alertToast` calls, lightbox reloads, spinner calls).  Asynchronous
completions are explicit: every request remembers its callback, and an XHR event on a
request is delivered through the two handlers `apiRequest` installs.

The markup that `uploadFile` assigns to `innerHTML` is built as the source builds it
(`photoMarkup`).  The nodes it creates are derived here when the interpolated texts are
attribute text the model covers (`attrChars`, `parsePhotoMarkup`); on any other markup
they are what the HTML parser of the browser yields, a parameter of the environment
(`Env.parseInnerHTML`).
-/

namespace Photos

/-! ## Data model -/

/-- A `File` object as far as the script reads it: `file.name` and `file.type`. -/
structure File where
  name : String
  type : String
deriving DecidableEq, Repr

/-- A rendered `.photo-container` element.  `uid` is the identity of the DOM node,
`dataSrc` is `el.dataset.src`, `hrefs` are the `href` attributes of its `<a href>`
descendants, `imgs` the `src` attributes of its `<img>` descendants (`none` when an
`<img>` has no such attribute) and `photoKeys` the `data-photo-key` attributes of its
delete buttons, each in document order.  `within` lists the identities of the photo
elements that contain it (none for an element placed directly in the gallery). -/
structure PhotoEl where
  uid : Nat
  dataSrc : String
  hrefs : List String
  imgs : List (Option String)
  photoKeys : List String
  within : List Nat
deriving DecidableEq, Repr

/-- A `.photo-container` element created by markup assigned to `innerHTML`: what a
`PhotoEl` records, and the positions (in the list of such elements, document order) of
those that enclose it. -/
structure InnerContainer where
  dataSrc : String
  hrefs : List String
  imgs : List (Option String)
  photoKeys : List String
  enclosing : List Nat
deriving DecidableEq, Repr

/-- The nodes that markup assigned to `element.innerHTML` creates under the element, as
far as the script can see them: the `href` attributes of the `<a href>` descendants, the
`src` attributes of the `<img>` descendants, the `data-photo-key` attributes, and the
descendants of class `photo-container`, each in document order. -/
structure InnerNodes where
  hrefs : List String
  imgs : List (Option String)
  photoKeys : List String
  containers : List InnerContainer
deriving DecidableEq, Repr

/-- The `data` member of the sign response: the storage endpoint and the form fields
(in property order, which is the order `for (key in s3Data.fields)` visits). -/
structure S3Data where
  url : String
  fields : List (String × String)
deriving DecidableEq, Repr

/-- A parsed JSON response seen through the properties the script reads:
`response.message`, `response.url`, `response.data` (`none` is `undefined`). -/
structure Response where
  message : Option String
  url : Option String
  data : Option S3Data
deriving DecidableEq, Repr

/-- The object literal `{}`. -/
def Response.empty : Response := { message := none, url := none, data := none }

/-- Outcome of `JSON.parse(this.responseText)`: the text is not JSON (`JSON.parse`
throws a `SyntaxError`) or it parses to a value. -/
inductive Body where
  | malformed
  | json (r : Response)
deriving DecidableEq, Repr

/-- One value appended to a `FormData`. -/
inductive FormValue where
  | text (s : String)
  | file (f : File)
deriving DecidableEq, Repr

/-- The callbacks handed to `apiRequest`, with the variables each closure captures. -/
inductive Callback where
  /-- the arrow function in `deleteFile` (captures `el`, `fileName`) -/
  | deleteFile (el : PhotoEl) (fileName : String)
  /-- the arrow function in `getSignedRequest` (captures `renamedFile`) -/
  | getSignedRequest (renamedFile : File)
  /-- the arrow function in `uploadFile` (captures `file`, `url`) -/
  | uploadFile (file : File) (url : String)
  /-- the arrow function of `addFileToDb` and of `deleteFileFromDb` -/
  | message
deriving DecidableEq, Repr

/-- A call `apiRequest(method, url, cb, data)`. -/
structure Request where
  method : String
  url : String
  cb : Callback
  data : Option (List (String × FormValue))
deriving DecidableEq, Repr

/-- Values read once when the script loads, and globals defined by the page template. -/
structure Env where
  /-- `document.getElementById('collection').value` -/
  collection : String
  /-- value of `#doc-id` when that element exists; `none` stands for the number `0` -/
  docId : Option String
  /-- `dropArea.dataset.multiple` -/
  dataMultiple : Option String
  /-- truthiness of the global `lightbox` -/
  lightbox : Bool
  urlForSignS3 : String
  urlForDeleteS3 : String
  urlForAddPhoto : String
  urlForDeletePhoto : String
  /-- the HTML fragment parser of the browser; the model consults it only for markup
  that `parsePhotoMarkup` does not cover -/
  parseInnerHTML : String → InnerNodes

/-- The page state. -/
structure Page where
  /-- `document.querySelectorAll('.photo-container')`, in document order -/
  photos : List PhotoEl
  /-- whether `document.getElementById('gallery')` is non-null -/
  hasGallery : Bool
  /-- value of the hidden `#photo_list` input; `none` when the element is absent -/
  photoList : Option String
  formSubmitted : Bool
  /-- identity given to the next node made by `document.createElement` -/
  nextUid : Nat
  /-- every `apiRequest` call so far, oldest first -/
  sent : List Request
  /-- argument of every `alertToast` call so far (`none` is `undefined`) -/
  toasts : List (Option String)
  /-- number of `lightbox.reload()` calls -/
  lightboxReloads : Nat
  /-- number of `showSpinner()` calls -/
  spinnerShown : Nat
  /-- delays of the `setTimeout` calls that schedule `hideSpinner` -/
  hideSpinnerTimers : List Nat
deriving DecidableEq, Repr

/-- An event on an `XMLHttpRequest`: `readystatechange` with the values of
`this.readyState`, `this.status` and the outcome of parsing `this.responseText`, or
`error` with the value of `this.status`. -/
inductive XhrEvent where
  | readystatechange (readyState : Nat) (status : Nat) (body : Body)
  | error (status : Nat)
deriving DecidableEq, Repr

/-- What `new Date()` yields, as far as it is read: `getDate()` and `getMonth()`. -/
structure JsDate where
  getDate : Nat
  getMonth : Nat
deriving DecidableEq, Repr

/-! ## Helpers standing for JavaScript built-ins -/

/-- JavaScript truthiness of `docId`: the number `0` and the empty string are falsy. -/
def truthy : Option String → Bool
  | none => false
  | some s => s != ""

/-- `String(docId)`. -/
def docIdString : Option String → String
  | none => "0"
  | some s => s

/-- `s.split(sep)` on the characters of `s`. -/
def splitChars (sep : Char) : List Char → List (List Char)
  | [] => [[]]
  | c :: cs =>
    if c = sep then [] :: splitChars sep cs
    else
      match splitChars sep cs with
      | [] => [[c]]
      | seg :: rest => (c :: seg) :: rest

/-- `s.split(sep).pop()`. -/
def splitPop (sep : Char) (s : String) : String :=
  String.mk ((splitChars sep s.data).getLast?.getD [])

/-- `xs.join(',')`. -/
def joinComma (xs : List String) : String := ",".intercalate xs

/-- Number of low bits a value of `x` units loses when it is cut to a 53-bit
significand: the number of halvings that bring `x` below `2^53`. -/
def excessBits : Nat → Nat → Nat
  | 0, _ => 0
  | fuel + 1, x => if x < 2 ^ 53 then 0 else excessBits fuel (x / 2) + 1

/-- Round-to-nearest-even of IEEE-754 binary64, on a non-negative value given in units
of `2^-1074` (the spacing of the subnormals) and below the overflow threshold; the
result is in the same unit.  Values below `2^53` units are exact. -/
def roundDouble (x : Nat) : Nat :=
  let s := excessBits x x
  let hi := x / 2 ^ s
  let lo := x % 2 ^ s
  if 2 ^ s < 2 * lo ∨ (2 * lo = 2 ^ s ∧ hi % 2 = 1) then (hi + 1) * 2 ^ s else hi * 2 ^ s

/-- `Math.floor(Math.random() * 999)` when `Math.random()` returns the double
`rand · 2^-1074`: the exact product is rounded to a double, then floored. -/
def floorRandom999 (rand : Nat) : Nat := roundDouble (rand * 999) / 2 ^ 1074

/-! ## The script -/

/-- The body of `xhr.onreadystatechange` and `xhr.onerror` in `apiRequest`: the
arguments `cb` is invoked with, or `none` when `cb` is not invoked (the state is not 4,
or `JSON.parse` throws). -/
def apiRequest.handler : XhrEvent → Option (Response × Nat)
  | .readystatechange readyState status body =>
    if readyState = 4 then
      if status = 200 then
        match body with
        | .json r => some (r, status)
        | .malformed => none
      else some (Response.empty, status)
    else none
  | .error status => some (Response.empty, status)

/-- The call `apiRequest(method, url, cb, data)`: the request is opened and sent. -/
def apiRequest (method url : String) (cb : Callback) (data : Option (List (String × FormValue)))
    (p : Page) : Page :=
  { p with sent := p.sent ++ [{ method := method, url := url, cb := cb, data := data }] }

/-- The external `alertToast(msg)`. -/
def alertToast (msg : Option String) (p : Page) : Page :=
  { p with toasts := p.toasts ++ [msg] }

/-- Lines 53-63. -/
def fileListUpdate (env : Env) (p : Page) : Page :=
  let fileList := p.photos.map (fun el => el.dataSrc)
  let p1 := match p.photoList with
    | some _ => { p with photoList := some (joinComma fileList) }
    | none => p
  if env.lightbox then { p1 with lightboxReloads := p1.lightboxReloads + 1 } else p1

/-- Lines 112-116: `deleteFile(el)` up to the `apiRequest` call. -/
def deleteFile (env : Env) (el : PhotoEl) (p : Page) : Page :=
  let fileName := splitPop '/' el.dataSrc
  let url := env.urlForDeleteS3 ++ "?file_name=" ++ fileName
  apiRequest "GET" url (.deleteFile el fileName) none p

/-- Lines 202-208. -/
def addFileToDb (env : Env) (photo : String) (p : Page) : Page :=
  let url := env.urlForAddPhoto ++ "?coll=" ++ env.collection ++ "&docid="
    ++ docIdString env.docId ++ "&photo=" ++ photo
  apiRequest "PUT" url .message none p

/-- Lines 214-220. -/
def deleteFileFromDb (env : Env) (photo : String) (p : Page) : Page :=
  let url := env.urlForDeletePhoto ++ "?coll=" ++ env.collection ++ "&photo=" ++ photo
  apiRequest "GET" url .message none p

/-- Line 138: the new file name. -/
def newFileName (env : Env) (file : File) (date : JsDate) (rand : Nat) : String :=
  let fileExt := splitPop '.' file.name
  env.collection ++ toString date.getDate ++ toString (date.getMonth + 1)
    ++ toString (floorRandom999 rand) ++ "." ++ fileExt

/-- Lines 135-142: `getSignedRequest(file)` up to the `apiRequest` call; `date` is
`new Date()` and `rand` the double returned by `Math.random()`. -/
def getSignedRequest (env : Env) (file : File) (date : JsDate) (rand : Nat) (p : Page) : Page :=
  let renamedFile : File := { name := newFileName env file date rand, type := file.type }
  let url := env.urlForSignS3 ++ "?file_name=" ++ renamedFile.name
    ++ "&file_type=" ++ renamedFile.type
  apiRequest "GET" url (.getSignedRequest renamedFile) none p

/-- Lines 161-168: `uploadFile(file, s3Data, url)` up to the `apiRequest` call. -/
def uploadFile (file : File) (s3Data : S3Data) (url : String) (p : Page) : Page :=
  let postData := s3Data.fields.map (fun kv => (kv.1, FormValue.text kv.2))
    ++ [("file", FormValue.file file)]
  apiRequest "POST" s3Data.url (.uploadFile file url) (some postData) p

/-- Line 176-184: the string assigned to `innerHTML`, the template literals with `url`,
`collection` and `existingElCount` interpolated as they are. -/
def photoMarkup (collection url : String) (existingElCount : Nat) : String :=
  let imgTag := "<a href=\x22" ++ url ++ "\x22 class=\x22" ++ collection ++ "-gallery\x22>\n"
    ++ "                                        "
    ++ "<img class=\x22img-thumbnail gallery-item\x22 src=\x22" ++ url
    ++ "\x22 alt=\x22photo\x22>\n"
    ++ "                                    " ++ "</a>"
  imgTag ++ "\n"
    ++ "                                    "
    ++ "<a class=\x22delete-photo btn btn-danger\x22 data-photo-key=\x22"
    ++ toString existingElCount ++ "\x22>\n"
    ++ "                                        "
    ++ "<i class=\x22bi bi-trash-fill\x22></i>\n"
    ++ "                                    " ++ "</a>"

/-- The double quote, which ends a double-quoted attribute value. -/
def dquote : Char := Char.ofNat 34

/-- The value the HTML tokenizer gives to a double-quoted attribute whose source text
is `text`, on the texts this model covers: every character stands for itself and the
character reference `&amp;` stands for `&`.  The result is `none` on the other texts:
those holding a double quote (the attribute ends there and the rest is parsed as
markup), another use of `&` (character references need the table of names), the NUL
character (replaced by the parser) or a carriage return (normalised away). -/
def attrChars : List Char → Option (List Char)
  | [] => some []
  | c :: cs =>
    if c = '&' then
      match cs with
      | a :: m :: p :: sc :: rest =>
        if a = 'a' ∧ m = 'm' ∧ p = 'p' ∧ sc = ';'
        then (attrChars rest).map (fun v => '&' :: v)
        else none
      | _ => none
    else if c = dquote ∨ c = Char.ofNat 0 ∨ c = Char.ofNat 13 then none
    else (attrChars cs).map (fun v => c :: v)

/-- `attrChars` on strings. -/
def attrValue (text : String) : Option String := (attrChars text.data).map String.mk

/-- Text that stands for itself between the double quotes of an attribute: it holds no
`&`, no double quote, no NUL and no carriage return. -/
def PlainAttrText (text : String) : Prop :=
  ∀ c ∈ text.data, c ≠ '&' ∧ c ≠ dquote ∧ c ≠ Char.ofNat 0 ∧ c ≠ Char.ofNat 13

instance (text : String) : Decidable (PlainAttrText text) := by
  unfold PlainAttrText; infer_instance

/-- The nodes `photoMarkup collection url existingElCount` denotes, when both
interpolated texts are covered by `attrValue`: a link whose `href` is the value of `url`,
holding an image whose `src` is the value of `url`, and a delete button whose
`data-photo-key` is the count; no element of class `photo-container`. -/
def parsePhotoMarkup (collection url : String) (existingElCount : Nat) : Option InnerNodes :=
  match attrValue url, attrValue collection with
  | some value, some _ =>
    some { hrefs := [value], imgs := [some value], photoKeys := [toString existingElCount],
           containers := [] }
  | _, _ => none

/-- The nodes created under the new element: those the model derives from the template,
and what the parser of the browser yields on markup the model does not cover. -/
def innerNodes (parse : String → InnerNodes) (collection url : String) (existingElCount : Nat) :
    InnerNodes :=
  match parsePhotoMarkup collection url existingElCount with
  | some nodes => nodes
  | none => parse (photoMarkup collection url existingElCount)

/-- The photo elements that markup created inside the element `parent`; they get the
identities from `uid` on, in document order. -/
def nestedEls (parent : Nat) : Nat → List InnerContainer → List PhotoEl
  | _, [] => []
  | uid, c :: cs =>
    { uid := uid, dataSrc := c.dataSrc, hrefs := c.hrefs, imgs := c.imgs,
      photoKeys := c.photoKeys,
      within := parent :: c.enclosing.map (fun i => parent + 1 + i) }
      :: nestedEls parent (uid + 1) cs

/-- Lines 179-186: the element built by `Object.assign(document.createElement('div'), ...)`
followed by `newEl.dataset.src = url`; `nodes` are the nodes its `innerHTML` created.
The element goes directly into `#gallery`. -/
def newPhotoEl (uid : Nat) (url : String) (nodes : InnerNodes) : PhotoEl :=
  { uid := uid, dataSrc := url, hrefs := nodes.hrefs, imgs := nodes.imgs,
    photoKeys := nodes.photoKeys, within := [] }

/-- Lines 175-187: the elements of class `photo-container` that
`containerEl.appendChild(newEl)` adds to the document, in document order: `newEl` itself,
then those its markup created, if any. -/
def insertedPhotoEls (parse : String → InnerNodes) (collection : String) (uid : Nat)
    (url : String) (existingElCount : Nat) : List PhotoEl :=
  newPhotoEl uid url (innerNodes parse collection url existingElCount)
    :: nestedEls uid (uid + 1) (innerNodes parse collection url existingElCount).containers

/-- Line 121, `el.remove()`: the node `el` leaves the document together with the
photo elements inside it. -/
def removeEl (el : PhotoEl) (els : List PhotoEl) : List PhotoEl :=
  els.filter (fun e => e.uid != el.uid && !e.within.contains el.uid)

/-- The callbacks of `deleteFile` (lines 116-128), `getSignedRequest` (142-149),
`uploadFile` (168-195), `addFileToDb` (205-207) and `deleteFileFromDb` (217-219),
invoked with `(response, status)`. -/
def Callback.run (env : Env) : Callback → Response → Nat → Page → Page
  | .deleteFile el fileName, _, status, p =>
    if status = 200 then
      let p1 := if truthy env.docId then deleteFileFromDb env el.dataSrc p else p
      let p2 := { p1 with photos := removeEl el p1.photos }
      let p3 := fileListUpdate env p2
      alertToast (some ("Image \x27" ++ fileName ++ "\x27 was successfully deleted!")) p3
    else alertToast (some "Could not delete.") p
  | .getSignedRequest renamedFile, response, status, p =>
    if status = 200 then
      match response.data with
      | some s3Data => Photos.uploadFile renamedFile s3Data (response.url.getD "undefined") p
      | none => p
    else alertToast (some "Could not get signed URL.") p
  | .uploadFile file url, _, status, p =>
    if status = 200 ∨ status = 204 then
      let p1 := if truthy env.docId then addFileToDb env url p else p
      let p2 :=
        if p1.hasGallery then
          let newEls := insertedPhotoEls env.parseInnerHTML env.collection p1.nextUid url
            p1.photos.length
          alertToast (some ("Image \x27" ++ file.name ++ "\x27 was successfully uploaded!"))
            { p1 with photos := p1.photos ++ newEls, nextUid := p1.nextUid + newEls.length }
        else p1
      fileListUpdate env p2
    else alertToast (some "Could not upload file.") p
  | .message, response, _, p => alertToast response.message p

/-- An XHR event on a request made through `apiRequest`: the handler decides whether
and with what the callback runs. -/
def xhrEvent (env : Env) (cb : Callback) (ev : XhrEvent) (p : Page) : Page :=
  match apiRequest.handler ev with
  | some (response, status) => cb.run env response status p
  | none => p

/-- Line 90: `dropArea.dataset.multiple == "true"`. -/
def isMultiple (env : Env) : Bool := env.dataMultiple == some "true"

/-- Lines 89-104: `handleFiles(files)`.  Every file comes with the `new Date()` and
`Math.random()` values its `getSignedRequest` call reads; `confirmed` is the answer
`confirm(...)` returns if it is asked. -/
def handleFiles (env : Env) (files : List (File × JsDate × Nat)) (confirmed : Bool)
    (p : Page) : Page :=
  if isMultiple env then
    files.foldl (fun q f => getSignedRequest env f.1 f.2.1 f.2.2 q) p
  else
    let first (q : Page) : Page :=
      match files.head? with
      | some f => getSignedRequest env f.1 f.2.1 f.2.2 q
      | none => q
    match p.photos.head? with
    | some el => if confirmed then first (deleteFile env el p) else p
    | none => first p

/-- Index of photo entries handed to the editor. -/
structure PhotoEntry where
  title : String
  value : String
deriving DecidableEq, Repr

/-- The `src` property of an `<img>`: the empty string when the attribute is missing,
else the attribute resolved against the document by the browser (`resolve`). -/
def srcProperty (resolve : String → String) : Option String → String
  | none => ""
  | some attr => resolve attr

/-- The `forEach` of lines 230-232 from index `i` on; `none` when
`el.getElementsByTagName('img')[0]` is `undefined` and reading `.src` throws. -/
def photoListFrom (resolve : String → String) : Nat → List PhotoEl → Option (List PhotoEntry)
  | _, [] => some []
  | i, el :: rest =>
    match el.imgs with
    | [] => none
    | img :: _ =>
      (photoListFrom resolve (i + 1) rest).map
        (fun l => { title := "Photo" ++ toString (i + 1), value := srcProperty resolve img } :: l)

/-- Lines 227-238. -/
def getPhotoList (resolve : String → String) (p : Page) : Option (List PhotoEntry) :=
  if p.photos.length ≠ 0 then photoListFrom resolve 0 p.photos else some []

/-- The `image_list` option of `tiny.js`, lines 16-18: the argument `success` receives. -/
def image_list (resolve : String → String) (p : Page) : Option (List PhotoEntry) :=
  getPhotoList resolve p

/-- Lines 263-265: the submit listener. -/
def onsubmit (p : Page) : Page := { p with formSubmitted := true }

/-- Lines 271-279: `window.onbeforeunload`, its return value (`none` is `undefined`)
and the page afterwards. -/
def onbeforeunload (p : Page) : Option String × Page :=
  let p1 := { p with spinnerShown := p.spinnerShown + 1,
                     hideSpinnerTimers := p.hideSpinnerTimers ++ [2000] }
  if p.photos.length ≠ 0 ∧ ¬ p.formSubmitted = true then
    (some "Are you sure you want to leave?", p1)
  else (none, p1)

/-- Lines 281-288: `window.onunload`. -/
def onunload (env : Env) (p : Page) : Page :=
  if p.photos.length ≠ 0 ∧ ¬ p.formSubmitted = true then
    p.photos.foldl (fun q el => deleteFile env el q) p
  else p

/-- The two handlers of the unload guard. -/
structure UnloadGuard where
  beforeunload : Page → Option String × Page
  unload : Page → Page

/-- Lines 269-289: the handlers assigned to `window`, if any. -/
def installUnloadGuard (env : Env) : Option UnloadGuard :=
  if ¬ truthy env.docId = true then
    some { beforeunload := onbeforeunload, unload := onunload env }
  else none

/-- What can happen to the page: a `handleFiles` call, or an XHR event on the `i`-th
request sent so far. -/
inductive Action where
  | handleFiles (files : List (File × JsDate × Nat)) (confirmed : Bool)
  | xhr (i : Nat) (ev : XhrEvent)
deriving DecidableEq, Repr

/-- One step of the page. -/
def step (env : Env) (p : Page) : Action → Page
  | .handleFiles files confirmed => handleFiles env files confirmed p
  | .xhr i ev =>
    match p.sent.get? i with
    | some r => xhrEvent env r.cb ev p
    | none => p

/-- A run of the page. -/
def run (env : Env) (p : Page) (as : List Action) : Page := as.foldl (step env) p


/-! ## Concrete data used to exercise the definitions -/

/-- A new record (no document id) of collection `pets`, single-file mode.  Its parser
parameter yields no node; the markup of the examples below is covered by
`parsePhotoMarkup`, so it is never consulted there. -/
def envNew : Env :=
  { collection := "pets", docId := none, dataMultiple := none, lightbox := false,
    urlForSignS3 := "/sign_s3", urlForDeleteS3 := "/delete_s3",
    urlForAddPhoto := "/add_photo", urlForDeletePhoto := "/delete_photo",
    parseInnerHTML := fun _ => { hrefs := [], imgs := [], photoKeys := [], containers := [] } }

/-- An existing record (document id `42`), single-file mode. -/
def envEdit : Env := { envNew with docId := some "42" }

/-- A server-rendered photo element. -/
def elOld : PhotoEl :=
  { uid := 0, dataSrc := "https://bucket/pets1.png", hrefs := ["https://bucket/pets1.png"],
    imgs := [some "https://bucket/pets1.png"], photoKeys := ["0"], within := [] }

/-- A page showing `elOld`, with gallery and hidden list field. -/
def pageOne : Page :=
  { photos := [elOld], hasGallery := true, photoList := some "https://bucket/pets1.png",
    formSubmitted := false, nextUid := 1, sent := [], toasts := [], lightboxReloads := 0,
    spinnerShown := 0, hideSpinnerTimers := [] }

/-- A dropped file. -/
def catPng : File := { name := "cat.png", type := "image/png" }

/-! ## The list-field invariant and completions -/

/-- The hidden list field holds the comma-joined `data-src` values of the rendered
photo elements, in document order. -/
def ListInv (p : Page) : Prop :=
  p.photoList = some (joinComma (p.photos.map (fun el => el.dataSrc)))

instance (p : Page) : Decidable (ListInv p) := by unfold ListInv; infer_instance

/-- A completion of a storage request: the `uploadFile` callback or the `deleteFile`
callback invoked with `(response, status)`. -/
inductive Completion where
  | upload (file : File) (url : String) (response : Response) (status : Nat)
  | delete (el : PhotoEl) (fileName : String) (response : Response) (status : Nat)
deriving DecidableEq, Repr

/-- The page after a completion. -/
def Completion.apply (env : Env) (p : Page) : Completion → Page
  | .upload file url response status => (Callback.uploadFile file url).run env response status p
  | .delete el fileName response status =>
    (Callback.deleteFile el fileName).run env response status p

/-- Node identities are distinct and older than the next one `createElement` hands out. -/
def Page.WellFormed (p : Page) : Prop :=
  (p.photos.map (fun el => el.uid)).Nodup ∧ ∀ el ∈ p.photos, el.uid < p.nextUid

/-! ## Requests named in the statements -/

/-- The storage-delete request `deleteFile(el)` sends. -/
def storageDeleteRequest (env : Env) (el : PhotoEl) : Request :=
  { method := "GET",
    url := env.urlForDeleteS3 ++ "?file_name=" ++ splitPop '/' el.dataSrc,
    cb := .deleteFile el (splitPop '/' el.dataSrc), data := none }

/-- The request `addFileToDb(photo)` sends. -/
def addPhotoRequest (env : Env) (photo : String) : Request :=
  { method := "PUT",
    url := env.urlForAddPhoto ++ "?coll=" ++ env.collection ++ "&docid="
      ++ docIdString env.docId ++ "&photo=" ++ photo,
    cb := .message, data := none }

/-- The request `deleteFileFromDb(photo)` sends. -/
def deletePhotoRequest (env : Env) (photo : String) : Request :=
  { method := "GET",
    url := env.urlForDeletePhoto ++ "?coll=" ++ env.collection ++ "&photo=" ++ photo,
    cb := .message, data := none }

/-- The sign response used in the traces below. -/
def signOk : Response :=
  { message := none, url := some "https://bucket/pets5110.png",
    data := some { url := "https://bucket", fields := [("key", "pets5110.png")] } }

/-! ## Lemmas on the helpers -/

@[simp] theorem alertToast_photos (m : Option String) (p : Page) :
    (alertToast m p).photos = p.photos := rfl

@[simp] theorem alertToast_photoList (m : Option String) (p : Page) :
    (alertToast m p).photoList = p.photoList := rfl

@[simp] theorem alertToast_sent (m : Option String) (p : Page) :
    (alertToast m p).sent = p.sent := rfl

@[simp] theorem alertToast_toasts (m : Option String) (p : Page) :
    (alertToast m p).toasts = p.toasts ++ [m] := rfl

@[simp] theorem apiRequest_photos (a b : String) (cb : Callback)
    (d : Option (List (String × FormValue))) (p : Page) :
    (apiRequest a b cb d p).photos = p.photos := rfl

@[simp] theorem apiRequest_photoList (a b : String) (cb : Callback)
    (d : Option (List (String × FormValue))) (p : Page) :
    (apiRequest a b cb d p).photoList = p.photoList := rfl

@[simp] theorem apiRequest_hasGallery (a b : String) (cb : Callback)
    (d : Option (List (String × FormValue))) (p : Page) :
    (apiRequest a b cb d p).hasGallery = p.hasGallery := rfl

@[simp] theorem apiRequest_nextUid (a b : String) (cb : Callback)
    (d : Option (List (String × FormValue))) (p : Page) :
    (apiRequest a b cb d p).nextUid = p.nextUid := rfl

@[simp] theorem apiRequest_toasts (a b : String) (cb : Callback)
    (d : Option (List (String × FormValue))) (p : Page) :
    (apiRequest a b cb d p).toasts = p.toasts := rfl

@[simp] theorem apiRequest_sent (a b : String) (cb : Callback)
    (d : Option (List (String × FormValue))) (p : Page) :
    (apiRequest a b cb d p).sent
      = p.sent ++ [{ method := a, url := b, cb := cb, data := d }] := rfl

@[simp] theorem fileListUpdate_photos (env : Env) (p : Page) :
    (fileListUpdate env p).photos = p.photos := by
  unfold fileListUpdate
  rcases p with ⟨_, _, _ | _, _, _, _, _, _, _, _⟩ <;> cases env.lightbox <;> rfl

@[simp] theorem alertToast_nextUid (m : Option String) (p : Page) :
    (alertToast m p).nextUid = p.nextUid := rfl

@[simp] theorem fileListUpdate_nextUid (env : Env) (p : Page) :
    (fileListUpdate env p).nextUid = p.nextUid := by
  unfold fileListUpdate
  rcases p with ⟨_, _, _ | _, _, _, _, _, _, _, _⟩ <;> cases env.lightbox <;> rfl

@[simp] theorem fileListUpdate_sent (env : Env) (p : Page) :
    (fileListUpdate env p).sent = p.sent := by
  unfold fileListUpdate
  rcases p with ⟨_, _, _ | _, _, _, _, _, _, _, _⟩ <;> cases env.lightbox <;> rfl

@[simp] theorem fileListUpdate_toasts (env : Env) (p : Page) :
    (fileListUpdate env p).toasts = p.toasts := by
  unfold fileListUpdate
  rcases p with ⟨_, _, _ | _, _, _, _, _, _, _, _⟩ <;> cases env.lightbox <;> rfl

theorem fileListUpdate_photoList (env : Env) (p : Page) :
    (fileListUpdate env p).photoList
      = p.photoList.map (fun _ => joinComma (p.photos.map (fun el => el.dataSrc))) := by
  unfold fileListUpdate
  rcases p with ⟨_, _, _ | _, _, _, _, _, _, _, _⟩ <;> cases env.lightbox <;> rfl

/-- With the hidden field present, `fileListUpdate` establishes the invariant. -/
theorem fileListUpdate_listInv (env : Env) (p : Page) (h : p.photoList.isSome = true) :
    ListInv (fileListUpdate env p) := by
  unfold ListInv
  rw [fileListUpdate_photoList, fileListUpdate_photos]
  cases hp : p.photoList with
  | none => simp [hp] at h
  | some v => rfl

theorem listInv_isSome {p : Page} (h : ListInv p) : p.photoList.isSome = true := by
  unfold ListInv at h
  simp [h]

/-- Every completion keeps the invariant. -/
theorem Completion.apply_listInv (env : Env) (p : Page) (c : Completion) (h : ListInv p) :
    ListInv (c.apply env p) := by
  have hs := listInv_isSome h
  cases c with
  | upload file url response status =>
    simp only [Completion.apply, Callback.run]
    split
    · apply fileListUpdate_listInv
      split <;> split <;> simpa [addFileToDb] using hs
    · simpa [ListInv] using h
  | delete el fileName response status =>
    simp only [Completion.apply, Callback.run]
    split
    · have : ListInv (fileListUpdate env
          { (if truthy env.docId = true then deleteFileFromDb env el.dataSrc p else p) with
            photos := removeEl el (if truthy env.docId = true
              then deleteFileFromDb env el.dataSrc p else p).photos }) := by
        apply fileListUpdate_listInv
        split <;> simpa [deleteFileFromDb] using hs
      simpa [ListInv] using this
    · simpa [ListInv] using h

/-! ## Lemmas on the request helper -/

theorem handler_parsed (r : Response) :
    apiRequest.handler (.readystatechange 4 200 (.json r)) = some (r, 200) := rfl

theorem handler_unparsed :
    apiRequest.handler (.readystatechange 4 200 .malformed) = none := rfl

theorem handler_failed (s : Nat) (body : Body) (h : s ≠ 200) :
    apiRequest.handler (.readystatechange 4 s body) = some (Response.empty, s) := by
  simp [apiRequest.handler, h]

theorem handler_error (s : Nat) :
    apiRequest.handler (.error s) = some (Response.empty, s) := rfl

theorem handler_pending (k s : Nat) (body : Body) (h : k ≠ 4) :
    apiRequest.handler (.readystatechange k s body) = none := by
  simp [apiRequest.handler, h]

/-- A completion whose status is `200` reaches the callback only with a parsed body. -/
theorem xhrEvent_ok (env : Env) (cb : Callback) (body : Body) (p : Page) :
    xhrEvent env cb (.readystatechange 4 200 body) p
      = match body with
        | .json r => cb.run env r 200 p
        | .malformed => p := by
  cases body <;> rfl

/-- A completion whose status is not `200` reaches the callback with `{}`. -/
theorem xhrEvent_failed (env : Env) (cb : Callback) (s : Nat) (body : Body) (p : Page)
    (h : s ≠ 200) :
    xhrEvent env cb (.readystatechange 4 s body) p = cb.run env Response.empty s p := by
  simp [xhrEvent, handler_failed s body h]

/-- Photo elements after the `deleteFile` callback ran with status `200`. -/
theorem deleteFile_run_ok_photos (env : Env) (el : PhotoEl) (fileName : String)
    (r : Response) (p : Page) :
    ((Callback.deleteFile el fileName).run env r 200 p).photos
      = removeEl el p.photos := by
  simp only [Callback.run]
  cases truthy env.docId <;> simp [deleteFileFromDb]

/-- Requests sent by the `deleteFile` callback run with status `200`. -/
theorem deleteFile_run_ok_sent (env : Env) (el : PhotoEl) (fileName : String)
    (r : Response) (p : Page) :
    ((Callback.deleteFile el fileName).run env r 200 p).sent
      = (if truthy env.docId = true then deleteFileFromDb env el.dataSrc p else p).sent := by
  simp only [Callback.run]
  simp

/-- The `deleteFile` callback run with a status other than `200` only shows a toast. -/
theorem deleteFile_run_failed (env : Env) (el : PhotoEl) (fileName : String)
    (r : Response) (s : Nat) (p : Page) (h : s ≠ 200) :
    (Callback.deleteFile el fileName).run env r s p = alertToast (some "Could not delete.") p := by
  simp [Callback.run, h]

/-- Photo elements after the `uploadFile` callback ran with a success status. -/
theorem uploadFile_run_ok_photos (env : Env) (file : File) (url : String) (r : Response)
    (s : Nat) (p : Page) (hs : s = 200 ∨ s = 204) :
    ((Callback.uploadFile file url).run env r s p).photos
      = if p.hasGallery = true then p.photos
          ++ insertedPhotoEls env.parseInnerHTML env.collection p.nextUid url p.photos.length
        else p.photos := by
  simp only [Callback.run, if_pos hs]
  cases truthy env.docId <;> by_cases hg : p.hasGallery = true <;> simp [hg, addFileToDb]

/-- Requests sent by the `uploadFile` callback run with a success status. -/
theorem uploadFile_run_ok_sent (env : Env) (file : File) (url : String) (r : Response)
    (s : Nat) (p : Page) (hs : s = 200 ∨ s = 204) :
    ((Callback.uploadFile file url).run env r s p).sent
      = (if truthy env.docId = true then addFileToDb env url p else p).sent := by
  simp only [Callback.run, if_pos hs]
  cases truthy env.docId <;> by_cases hg : p.hasGallery = true <;> simp [hg, addFileToDb]

/-- The `uploadFile` callback run with any other status only shows a toast. -/
theorem uploadFile_run_failed (env : Env) (file : File) (url : String) (r : Response)
    (s : Nat) (p : Page) (h : s ≠ 200) (h4 : s ≠ 204) :
    (Callback.uploadFile file url).run env r s p
      = alertToast (some "Could not upload file.") p := by
  simp [Callback.run, h, h4]

/-- Hidden field after the `uploadFile` callback ran with a success status. -/
theorem uploadFile_run_ok_photoList (env : Env) (file : File) (url : String) (r : Response)
    (s : Nat) (p : Page) (hs : s = 200 ∨ s = 204) :
    ((Callback.uploadFile file url).run env r s p).photoList
      = p.photoList.map (fun _ => joinComma
          ((if p.hasGallery = true then p.photos
          ++ insertedPhotoEls env.parseInnerHTML env.collection p.nextUid url p.photos.length
            else p.photos).map (fun el => el.dataSrc))) := by
  simp only [Callback.run, if_pos hs, fileListUpdate_photoList]
  cases truthy env.docId <;> by_cases hg : p.hasGallery = true <;> simp [hg, addFileToDb]

/-- Hidden field after the `deleteFile` callback ran with status `200`. -/
theorem deleteFile_run_ok_photoList (env : Env) (el : PhotoEl) (fileName : String)
    (r : Response) (p : Page) :
    ((Callback.deleteFile el fileName).run env r 200 p).photoList
      = p.photoList.map (fun _ => joinComma
          ((removeEl el p.photos).map (fun el => el.dataSrc))) := by
  simp only [Callback.run, if_true, alertToast_photoList, fileListUpdate_photoList]
  cases truthy env.docId <;> simp [deleteFileFromDb]

/-- Photo elements after a completion of the storage request, whatever `docId` is. -/
theorem upload_completion_photos (env : Env) (file : File) (url : String) (s : Nat)
    (body : Body) (p : Page) :
    (xhrEvent env (.uploadFile file url) (.readystatechange 4 s body) p).photos
      = if (s = 204 ∨ (s = 200 ∧ body ≠ .malformed)) ∧ p.hasGallery = true
        then p.photos
          ++ insertedPhotoEls env.parseInnerHTML env.collection p.nextUid url p.photos.length
        else p.photos := by
  by_cases h2 : s = 200
  · subst h2
    rw [xhrEvent_ok]
    cases body with
    | malformed => simp
    | json r =>
      show ((Callback.uploadFile file url).run env r 200 p).photos = _
      rw [uploadFile_run_ok_photos _ _ _ _ _ _ (Or.inl rfl)]
      simp
  · rw [xhrEvent_failed _ _ _ _ _ h2]
    by_cases h4 : s = 204
    · subst h4
      rw [uploadFile_run_ok_photos _ _ _ _ _ _ (Or.inr rfl)]
      simp
    · rw [uploadFile_run_failed _ _ _ _ _ _ h2 h4]
      simp [h2, h4]

/-- Hidden field after a completion of the storage request, whatever `docId` is. -/
theorem upload_completion_photoList (env : Env) (file : File) (url : String) (s : Nat)
    (body : Body) (p : Page) :
    (xhrEvent env (.uploadFile file url) (.readystatechange 4 s body) p).photoList
      = if s = 204 ∨ (s = 200 ∧ body ≠ .malformed)
        then p.photoList.map (fun _ => joinComma
          ((if p.hasGallery = true then p.photos
          ++ insertedPhotoEls env.parseInnerHTML env.collection p.nextUid url p.photos.length
            else p.photos).map (fun el => el.dataSrc)))
        else p.photoList := by
  by_cases h2 : s = 200
  · subst h2
    rw [xhrEvent_ok]
    cases body with
    | malformed => simp
    | json r =>
      show ((Callback.uploadFile file url).run env r 200 p).photoList = _
      rw [uploadFile_run_ok_photoList _ _ _ _ _ _ (Or.inl rfl)]
      simp
  · rw [xhrEvent_failed _ _ _ _ _ h2]
    by_cases h4 : s = 204
    · subst h4
      rw [uploadFile_run_ok_photoList _ _ _ _ _ _ (Or.inr rfl)]
      simp
    · rw [uploadFile_run_failed _ _ _ _ _ _ h2 h4]
      simp [h2, h4]

/-- Requests sent on a completion of the storage request. -/
theorem upload_completion_sent (env : Env) (file : File) (url : String) (s : Nat)
    (body : Body) (p : Page) :
    (xhrEvent env (.uploadFile file url) (.readystatechange 4 s body) p).sent
      = if (s = 204 ∨ (s = 200 ∧ body ≠ .malformed)) ∧ truthy env.docId = true
        then (addFileToDb env url p).sent else p.sent := by
  by_cases h2 : s = 200
  · subst h2
    rw [xhrEvent_ok]
    cases body with
    | malformed => simp
    | json r =>
      show ((Callback.uploadFile file url).run env r 200 p).sent = _
      rw [uploadFile_run_ok_sent _ _ _ _ _ _ (Or.inl rfl)]
      cases truthy env.docId <;> simp
  · rw [xhrEvent_failed _ _ _ _ _ h2]
    by_cases h4 : s = 204
    · subst h4
      rw [uploadFile_run_ok_sent _ _ _ _ _ _ (Or.inr rfl)]
      cases truthy env.docId <;> simp
    · rw [uploadFile_run_failed _ _ _ _ _ _ h2 h4]
      simp [h2, h4]

/-- Photo elements after a completion of the storage-delete request. -/
theorem delete_completion_photos (env : Env) (el : PhotoEl) (fileName : String) (s : Nat)
    (body : Body) (p : Page) :
    (xhrEvent env (.deleteFile el fileName) (.readystatechange 4 s body) p).photos
      = if s = 200 ∧ body ≠ .malformed then removeEl el p.photos
        else p.photos := by
  by_cases h2 : s = 200
  · subst h2
    rw [xhrEvent_ok]
    cases body with
    | malformed => simp
    | json r =>
      show ((Callback.deleteFile el fileName).run env r 200 p).photos = _
      rw [deleteFile_run_ok_photos]
      simp
  · rw [xhrEvent_failed _ _ _ _ _ h2, deleteFile_run_failed _ _ _ _ _ _ h2]
    simp [h2]

/-- Hidden field after a completion of the storage-delete request. -/
theorem delete_completion_photoList (env : Env) (el : PhotoEl) (fileName : String) (s : Nat)
    (body : Body) (p : Page) :
    (xhrEvent env (.deleteFile el fileName) (.readystatechange 4 s body) p).photoList
      = if s = 200 ∧ body ≠ .malformed
        then p.photoList.map (fun _ => joinComma
          ((removeEl el p.photos).map (fun el => el.dataSrc)))
        else p.photoList := by
  by_cases h2 : s = 200
  · subst h2
    rw [xhrEvent_ok]
    cases body with
    | malformed => simp
    | json r =>
      show ((Callback.deleteFile el fileName).run env r 200 p).photoList = _
      rw [deleteFile_run_ok_photoList]
      simp
  · rw [xhrEvent_failed _ _ _ _ _ h2, deleteFile_run_failed _ _ _ _ _ _ h2]
    simp [h2]

/-- Requests sent on a completion of the storage-delete request. -/
theorem delete_completion_sent (env : Env) (el : PhotoEl) (fileName : String) (s : Nat)
    (body : Body) (p : Page) :
    (xhrEvent env (.deleteFile el fileName) (.readystatechange 4 s body) p).sent
      = if (s = 200 ∧ body ≠ .malformed) ∧ truthy env.docId = true
        then (deleteFileFromDb env el.dataSrc p).sent else p.sent := by
  by_cases h2 : s = 200
  · subst h2
    rw [xhrEvent_ok]
    cases body with
    | malformed => simp
    | json r =>
      show ((Callback.deleteFile el fileName).run env r 200 p).sent = _
      rw [deleteFile_run_ok_sent]
      cases truthy env.docId <;> simp
  · rw [xhrEvent_failed _ _ _ _ _ h2, deleteFile_run_failed _ _ _ _ _ _ h2]
    simp [h2]

/-! ## Lemmas on the built-ins -/

theorem excessBits_le (fuel x k : Nat) (h : x < 2 ^ (53 + k)) : excessBits fuel x ≤ k := by
  induction fuel generalizing x k with
  | zero => simp [excessBits]
  | succ n ih =>
    unfold excessBits
    split
    · exact Nat.zero_le _
    · rename_i hx
      cases k with
      | zero => exact absurd h hx
      | succ k =>
        have hhalf : x / 2 < 2 ^ (53 + k) := by
          rw [Nat.div_lt_iff_lt_mul (by decide : 0 < 2)]
          calc x < 2 ^ (53 + (k + 1)) := h
            _ = 2 ^ (53 + k) * 2 := by rw [← Nat.add_assoc, Nat.pow_succ]
        exact Nat.succ_le_succ (ih _ _ hhalf)

/-- The significand kept by `roundDouble` fits in 53 bits. -/
theorem excessBits_significand (fuel x : Nat) (h : x < 2 ^ (53 + fuel)) :
    x / 2 ^ excessBits fuel x < 2 ^ 53 := by
  induction fuel generalizing x with
  | zero => simpa [excessBits] using h
  | succ n ih =>
    unfold excessBits
    split
    · rename_i hx
      simpa using hx
    · have hhalf : x / 2 < 2 ^ (53 + n) := by
        rw [Nat.div_lt_iff_lt_mul (by decide : 0 < 2)]
        calc x < 2 ^ (53 + (n + 1)) := h
          _ = 2 ^ (53 + n) * 2 := by rw [← Nat.add_assoc, Nat.pow_succ]
      have := ih _ hhalf
      rwa [Nat.pow_succ, Nat.mul_comm, ← Nat.div_div_eq_div_mul]

/-- Rounding never passes a bound that is itself a multiple of every spacing in use. -/
theorem roundDouble_le (x c n : Nat) (hc : c ≤ 2 ^ 10) (hn : 43 ≤ n) (hx : x < c * 2 ^ n) :
    roundDouble x ≤ c * 2 ^ n := by
  have hs : excessBits x x ≤ n - 43 := by
    apply excessBits_le
    calc x < c * 2 ^ n := hx
      _ ≤ 2 ^ 10 * 2 ^ n := Nat.mul_le_mul_right _ hc
      _ = 2 ^ (53 + (n - 43)) := by rw [← Nat.pow_add]; congr 1; omega
  unfold roundDouble
  simp only
  generalize excessBits x x = s at hs ⊢
  have hsplit : c * 2 ^ n = (c * 2 ^ (n - s)) * 2 ^ s := by
    rw [Nat.mul_assoc, ← Nat.pow_add]; congr 2; omega
  have hhi : x / 2 ^ s < c * 2 ^ (n - s) := by
    rw [Nat.div_lt_iff_lt_mul (Nat.two_pow_pos s)]
    rw [← hsplit]; exact hx
  have hup : (x / 2 ^ s + 1) * 2 ^ s ≤ c * 2 ^ n := by
    rw [hsplit]; exact Nat.mul_le_mul_right _ hhi
  have hdown : x / 2 ^ s * 2 ^ s ≤ c * 2 ^ n :=
    Nat.le_trans (Nat.mul_le_mul_right _ (Nat.le_succ _)) hup
  split
  · exact hup
  · exact hdown

/-- `Math.floor(Math.random() * 999)` is at most `999`. -/
theorem floorRandom999_le (rand : Nat) (h : rand < 2 ^ 1074) : floorRandom999 rand ≤ 999 := by
  unfold floorRandom999
  have hn : 43 ≤ 1074 := by decide
  generalize 1074 = n at h hn ⊢
  have hx : rand * 999 < 999 * 2 ^ n := by
    rw [Nat.mul_comm]; exact Nat.mul_lt_mul_of_pos_left h (by decide)
  have hle := roundDouble_le (rand * 999) 999 n (by decide) hn hx
  apply Nat.div_le_of_le_mul
  rw [Nat.mul_comm (2 ^ n) 999]; exact hle

/-- Shape of `s.split(sep)`: the last piece holds no separator, and it is the whole
input (no separator occurs) or what follows the last separator. -/
theorem splitChars_last (sep : Char) (cs : List Char) :
    ∃ segs last, splitChars sep cs = segs ++ [last] ∧ sep ∉ last
      ∧ ((segs = [] ∧ last = cs) ∨ (segs ≠ [] ∧ ∃ pre, cs = pre ++ sep :: last)) := by
  induction cs with
  | nil => exact ⟨[], [], rfl, by simp, Or.inl ⟨rfl, rfl⟩⟩
  | cons c cs ih =>
    obtain ⟨segs, last, hsplit, hlast, hcase⟩ := ih
    by_cases hc : c = sep
    · refine ⟨[] :: segs, last, ?_, hlast, Or.inr ⟨by simp, ?_⟩⟩
      · simp [splitChars, hc, hsplit]
      · rcases hcase with ⟨_, h⟩ | ⟨_, pre, h⟩
        · exact ⟨[], by simp [hc, h]⟩
        · exact ⟨c :: pre, by simp [h]⟩
    · cases segs with
      | nil =>
        rcases hcase with ⟨_, h⟩ | ⟨h, _⟩
        · refine ⟨[], c :: last, ?_, ?_, Or.inl ⟨rfl, by rw [h]⟩⟩
          · simp [splitChars, hc, hsplit]
          · simp only [List.mem_cons, not_or]
            exact ⟨fun h1 => hc h1.symm, hlast⟩
        · exact absurd rfl h
      | cons s0 ss =>
        rcases hcase with ⟨h, _⟩ | ⟨_, pre, h⟩
        · exact absurd h (by simp)
        · refine ⟨(c :: s0) :: ss, last, ?_, hlast, Or.inr ⟨by simp, c :: pre, by simp [h]⟩⟩
          simp [splitChars, hc, hsplit]

/-- What `s.split(sep).pop()` returns: it holds no separator; it is what follows the
last separator of `s`, and all of `s` when `s` holds none. -/
theorem splitPop_spec (sep : Char) (s : String) :
    sep ∉ (splitPop sep s).data
      ∧ (sep ∈ s.data → ∃ pre, s.data = pre ++ sep :: (splitPop sep s).data)
      ∧ (sep ∉ s.data → splitPop sep s = s) := by
  obtain ⟨segs, last, hsplit, hlast, hcase⟩ := splitChars_last sep s.data
  have hpop : (splitPop sep s).data = last := by
    simp [splitPop, hsplit]
  refine ⟨by rw [hpop]; exact hlast, ?_, ?_⟩
  · intro hmem
    rcases hcase with ⟨_, h⟩ | ⟨_, pre, h⟩
    · rw [h] at hlast; exact absurd hmem hlast
    · exact ⟨pre, by rw [hpop]; exact h⟩
  · intro hnot
    rcases hcase with ⟨_, h⟩ | ⟨_, pre, h⟩
    · apply String.ext; rw [hpop]; exact h
    · exact absurd (by rw [h]; simp) hnot

/-- The rounded product is never below a multiple of the spacing that the exact
product reaches. -/
theorem roundDouble_ge (x c n : Nat) (hb : x < 2 ^ (53 + n)) (hc : c * 2 ^ n ≤ x) :
    c * 2 ^ n ≤ roundDouble x := by
  have hs : excessBits x x ≤ n := excessBits_le x x n hb
  unfold roundDouble
  simp only
  generalize excessBits x x = s at hs ⊢
  have hsplit : c * 2 ^ n = (c * 2 ^ (n - s)) * 2 ^ s := by
    rw [Nat.mul_assoc, ← Nat.pow_add]; congr 2; omega
  have hhi : c * 2 ^ (n - s) ≤ x / 2 ^ s := by
    rw [Nat.le_div_iff_mul_le (Nat.two_pow_pos s), ← hsplit]; exact hc
  have hdown : c * 2 ^ n ≤ x / 2 ^ s * 2 ^ s := by
    rw [hsplit]; exact Nat.mul_le_mul_right _ hhi
  split
  · exact Nat.le_trans hdown (Nat.mul_le_mul_right _ (Nat.le_succ _))
  · exact hdown

/-- `Math.floor(Math.random() * 999)` is the floor of the exact product, or one more
when the binary64 product rounds up to the next integer. -/
theorem floorRandom999_near (rand : Nat) (h : rand < 2 ^ 1074) :
    rand * 999 / 2 ^ 1074 ≤ floorRandom999 rand
      ∧ floorRandom999 rand ≤ rand * 999 / 2 ^ 1074 + 1 := by
  unfold floorRandom999
  have hn : 43 ≤ 1074 := by decide
  generalize 1074 = n at h hn ⊢
  have hx : rand * 999 < 999 * 2 ^ n := by
    rw [Nat.mul_comm]; exact Nat.mul_lt_mul_of_pos_left h (by decide)
  have hq : rand * 999 / 2 ^ n < 999 := by
    rw [Nat.div_lt_iff_lt_mul (Nat.two_pow_pos n)]; exact hx
  constructor
  · rw [Nat.le_div_iff_mul_le (Nat.two_pow_pos n)]
    apply roundDouble_ge
    · calc rand * 999 < 999 * 2 ^ n := hx
        _ ≤ 2 ^ 53 * 2 ^ n := Nat.mul_le_mul_right _ (by decide)
        _ = 2 ^ (53 + n) := by rw [← Nat.pow_add]
    · exact Nat.div_mul_le_self _ _
  · apply Nat.div_le_of_le_mul
    rw [Nat.mul_comm (2 ^ n)]
    apply roundDouble_le _ _ _ _ hn
    · exact Nat.lt_mul_of_div_lt (Nat.lt_succ_self _) (Nat.two_pow_pos n)
    · exact Nat.le_trans (Nat.succ_le_of_lt hq) (by decide)

/-! ## Lemmas on the markup of a new element -/

theorem attrChars_plain (cs : List Char)
    (h : ∀ c ∈ cs, c ≠ '&' ∧ c ≠ dquote ∧ c ≠ Char.ofNat 0 ∧ c ≠ Char.ofNat 13) :
    attrChars cs = some cs := by
  induction cs with
  | nil => rfl
  | cons c cs ih =>
    have hc := h c (List.mem_cons_self _ _)
    have hrest := ih (fun d hd => h d (List.mem_cons_of_mem _ hd))
    unfold attrChars
    rw [if_neg hc.1, if_neg (by simp [hc.2.1, hc.2.2.1, hc.2.2.2]), hrest]
    rfl

/-- Plain attribute text stands for itself. -/
theorem attrValue_plain (text : String) (h : PlainAttrText text) : attrValue text = some text := by
  unfold attrValue
  rw [attrChars_plain text.data h]
  rfl

/-- With plain `url` and `collection`, the markup creates the link and the image of
`url` and no photo element. -/
theorem innerNodes_plain (parse : String → InnerNodes) (collection url : String) (k : Nat)
    (hu : PlainAttrText url) (hc : PlainAttrText collection) :
    innerNodes parse collection url k
      = { hrefs := [url], imgs := [some url], photoKeys := [toString k], containers := [] } := by
  simp [innerNodes, parsePhotoMarkup, attrValue_plain url hu, attrValue_plain collection hc]

/-- With plain `url` and `collection`, appending the new element adds one photo element. -/
theorem insertedPhotoEls_plain (parse : String → InnerNodes) (collection url : String)
    (uid k : Nat) (hu : PlainAttrText url) (hc : PlainAttrText collection) :
    insertedPhotoEls parse collection uid url k
      = [{ uid := uid, dataSrc := url, hrefs := [url], imgs := [some url],
           photoKeys := [toString k], within := [] }] := by
  simp [insertedPhotoEls, innerNodes_plain parse collection url k hu hc, newPhotoEl, nestedEls]

/-- Whatever the markup, the first element added is the new one and its `data-src`
is `url`. -/
theorem insertedPhotoEls_head (parse : String → InnerNodes) (collection url : String)
    (uid k : Nat) :
    ∃ newEl rest, insertedPhotoEls parse collection uid url k = newEl :: rest
      ∧ newEl.uid = uid ∧ newEl.dataSrc = url ∧ newEl.within = [] :=
  ⟨_, _, rfl, rfl, rfl, rfl⟩

/-! ## Lemmas on node identity -/

theorem nestedEls_uids (parent uid : Nat) (cs : List InnerContainer) :
    (nestedEls parent uid cs).map (fun e => e.uid) = List.range' uid cs.length := by
  induction cs generalizing uid with
  | nil => rfl
  | cons c cs ih => simp [nestedEls, ih, List.range'_succ]

theorem nestedEls_length (parent uid : Nat) (cs : List InnerContainer) :
    (nestedEls parent uid cs).length = cs.length := by
  induction cs generalizing uid with
  | nil => rfl
  | cons c cs ih => simp [nestedEls, ih]

/-- The elements added by one upload carry the next identities, in order. -/
theorem insertedPhotoEls_uids (parse : String → InnerNodes) (collection url : String)
    (uid k : Nat) :
    (insertedPhotoEls parse collection uid url k).map (fun e => e.uid)
      = List.range' uid (insertedPhotoEls parse collection uid url k).length := by
  simp [insertedPhotoEls, nestedEls_uids, nestedEls_length, newPhotoEl, List.range'_succ]

/-- With distinct identities and nothing inside `el`, `el.remove()` is removing `el`
from the list. -/
theorem removeEl_eq_erase (els : List PhotoEl) (el : PhotoEl)
    (hn : (els.map (fun e => e.uid)).Nodup) (hin : ∀ e ∈ els, el.uid ∉ e.within)
    (hel : el ∈ els) :
    removeEl el els = els.erase el := by
  unfold removeEl
  induction els with
  | nil => simp at hel
  | cons a rest ih =>
    rw [List.map_cons, List.nodup_cons] at hn
    have hin2 : ∀ e ∈ rest, el.uid ∉ e.within := fun e he => hin e (List.mem_cons_of_mem _ he)
    by_cases ha : a = el
    · subst ha
      have hrest : rest.filter (fun e => e.uid != a.uid && !e.within.contains a.uid) = rest := by
        rw [List.filter_eq_self]
        intro e he
        have h1 : e.uid ≠ a.uid := fun h => hn.1 (h ▸ List.mem_map_of_mem _ he)
        have h2 := hin2 e he
        simp [h1, h2]
      rw [List.filter_cons, if_neg (by simp), hrest, List.erase_cons_head]
    · have hel2 : el ∈ rest := by
        rcases List.mem_cons.mp hel with h | h
        · exact absurd h.symm ha
        · exact h
      have huid : a.uid ≠ el.uid := fun h => hn.1 (h ▸ List.mem_map_of_mem _ hel2)
      have hw := hin a (List.mem_cons_self _ _)
      rw [List.filter_cons, if_pos (by simp [huid, hw]), ih hn.2 hin2 hel2,
        List.erase_cons_tail]
      simpa using ha

/-- Appending nodes that carry the next identities keeps identities distinct. -/
theorem wellFormed_append (p : Page) (els : List PhotoEl)
    (huids : els.map (fun e => e.uid) = List.range' p.nextUid els.length)
    (h : p.WellFormed) :
    ((p.photos ++ els).map (fun el => el.uid)).Nodup
      ∧ ∀ el ∈ p.photos ++ els, el.uid < p.nextUid + els.length := by
  obtain ⟨hn, hlt⟩ := h
  have hmem : ∀ e ∈ els, p.nextUid ≤ e.uid ∧ e.uid < p.nextUid + els.length := by
    intro e he
    have : e.uid ∈ els.map (fun e => e.uid) := List.mem_map_of_mem _ he
    rw [huids] at this
    exact List.mem_range'_1.mp this
  constructor
  · rw [List.map_append, List.nodup_append]
    refine ⟨hn, by rw [huids]; exact List.nodup_range' _ _, ?_⟩
    intro a ha hb
    obtain ⟨e, he, hea⟩ := List.mem_map.mp ha
    obtain ⟨e2, he2, hea2⟩ := List.mem_map.mp hb
    have h1 := hlt e he
    have h2 := (hmem e2 he2).1
    omega
  · intro el hel
    rcases List.mem_append.mp hel with h1 | h1
    · exact Nat.lt_of_lt_of_le (hlt el h1) (Nat.le_add_right _ _)
    · exact (hmem el h1).2

/-- Every callback keeps node identities distinct. -/
theorem Callback.run_wellFormed (env : Env) (cb : Callback) (r : Response) (s : Nat)
    (p : Page) (h : p.WellFormed) : (cb.run env r s p).WellFormed := by
  cases cb with
  | deleteFile el fileName =>
    by_cases hs : s = 200
    · subst hs
      unfold Page.WellFormed
      rw [deleteFile_run_ok_photos]
      unfold removeEl
      refine ⟨(h.1.sublist ((List.filter_sublist _).map _)), ?_⟩
      intro e he
      have hlt := h.2 e (List.mem_filter.mp he).1
      simp only [Callback.run, if_true, alertToast_nextUid, fileListUpdate_nextUid]
      cases truthy env.docId <;> simpa [deleteFileFromDb] using hlt
    · rw [deleteFile_run_failed _ _ _ _ _ _ hs]
      exact h
  | getSignedRequest renamedFile =>
    simp only [Callback.run]
    split
    · split
      · exact h
      · exact h
    · exact h
  | uploadFile file url =>
    by_cases hs : s = 200 ∨ s = 204
    · unfold Page.WellFormed
      rw [uploadFile_run_ok_photos _ _ _ _ _ _ hs]
      have hnext : ((Callback.uploadFile file url).run env r s p).nextUid
          = if p.hasGallery = true then p.nextUid
              + (insertedPhotoEls env.parseInnerHTML env.collection p.nextUid url
                  p.photos.length).length
            else p.nextUid := by
        simp only [Callback.run, if_pos hs]
        cases truthy env.docId <;> by_cases hg : p.hasGallery = true <;> simp [hg, addFileToDb]
      rw [hnext]
      by_cases hg : p.hasGallery = true
      · simp only [if_pos hg]
        exact wellFormed_append p _ (insertedPhotoEls_uids _ _ _ _ _) h
      · simp only [if_neg hg]
        exact h
    · have h2 : s ≠ 200 := fun e => hs (Or.inl e)
      have h4 : s ≠ 204 := fun e => hs (Or.inr e)
      rw [uploadFile_run_failed _ _ _ _ _ _ h2 h4]
      exact h
  | message => exact h

/-- Every step of the page keeps node identities distinct. -/
theorem step_wellFormed (env : Env) (p : Page) (a : Action) (h : p.WellFormed) :
    (step env p a).WellFormed := by
  cases a with
  | handleFiles files confirmed =>
    have hsign : ∀ (fs : List (File × JsDate × Nat)) (q : Page), q.WellFormed →
        (fs.foldl (fun q f => getSignedRequest env f.1 f.2.1 f.2.2 q) q).WellFormed := by
      intro fs
      induction fs with
      | nil => exact fun q hq => hq
      | cons f rest ih => exact fun q hq => ih _ hq
    simp only [step, handleFiles]
    split
    · exact hsign files p h
    · cases files.head? <;> cases p.photos.head? <;> cases confirmed <;> exact h
  | xhr i ev =>
    simp only [step]
    cases p.sent.get? i with
    | none => exact h
    | some req =>
      simp only [xhrEvent]
      cases apiRequest.handler ev with
      | none => exact h
      | some rs => exact Callback.run_wellFormed env req.cb rs.1 rs.2 p h

/-! ## Lemmas on the editor list and the unload guard -/

theorem photoListFrom_spec (resolve : String → String) (k : Nat) (els : List PhotoEl)
    (h : ∀ el ∈ els, el.imgs ≠ []) :
    ∃ l, photoListFrom resolve k els = some l ∧ l.length = els.length
      ∧ ∀ (i : Nat) (el : PhotoEl), els[i]? = some el → ∃ img, el.imgs.head? = some img
          ∧ l[i]? = some (PhotoEntry.mk ("Photo" ++ toString (k + i + 1))
              (srcProperty resolve img)) := by
  induction els generalizing k with
  | nil => exact ⟨[], rfl, rfl, by simp⟩
  | cons el rest ih =>
    obtain ⟨l, hl, hlen, hget⟩ := ih (k + 1) (fun e he => h e (List.mem_cons_of_mem _ he))
    have himgs := h el (List.mem_cons_self _ _)
    cases hi : el.imgs with
    | nil => exact absurd hi himgs
    | cons src more =>
      refine ⟨{ title := "Photo" ++ toString (k + 1), value := srcProperty resolve src } :: l,
        ?_, ?_, ?_⟩
      · simp [photoListFrom, hi, hl]
      · simp [hlen]
      · intro i e he
        cases i with
        | zero =>
          simp only [List.getElem?_cons_zero, Option.some.injEq] at he
          subst he
          exact ⟨src, by simp [hi], by simp⟩
        | succ j =>
          simp only [List.getElem?_cons_succ] at he
          obtain ⟨s1, hs1, hj⟩ := hget j e he
          refine ⟨s1, hs1, ?_⟩
          simp only [List.getElem?_cons_succ, hj]
          have : k + 1 + j + 1 = k + (j + 1) + 1 := by omega
          rw [this]

theorem foldl_deleteFile_sent (env : Env) (els : List PhotoEl) (p : Page) :
    (els.foldl (fun q el => deleteFile env el q) p).sent
      = p.sent ++ els.map (storageDeleteRequest env) := by
  induction els generalizing p with
  | nil => simp
  | cons el rest ih =>
    rw [List.foldl_cons, ih]
    simp [deleteFile, storageDeleteRequest]

/-! ## The claims -/

/-- C1. The predicate "hidden field value = the `data-src` values of all rendered photo
elements, in document order, joined with a comma" is kept by every sequence of upload
completions and delete completions (the callbacks of `uploadFile` and `deleteFile`,
any response, any status), and `fileListUpdate` establishes it from any state in which
the `#photo_list` field exists. -/
theorem photo_list_invariant (env : Env) (p : Page) (cs : List Completion) (h : ListInv p) :
    ListInv (cs.foldl (Completion.apply env) p)
      ∧ ∀ q : Page, q.photoList.isSome = true → ListInv (fileListUpdate env q) := by
  refine ⟨?_, fun q hq => fileListUpdate_listInv env q hq⟩
  induction cs generalizing p with
  | nil => exact h
  | cons c cs ih => exact ih _ (Completion.apply_listInv env p c h)

/-- Witness for C1: a successful upload, a failed delete and a successful delete on
a page showing one photo. -/
theorem photo_list_invariant_witness :
    ListInv pageOne
      ∧ (ListInv ([Completion.upload catPng "https://bucket/pets5111.png" Response.empty 204,
            Completion.delete elOld "pets1.png" Response.empty 500,
            Completion.delete elOld "pets1.png" Response.empty 200].foldl
              (Completion.apply envEdit) pageOne)
        ∧ ∀ q : Page, q.photoList.isSome = true → ListInv (fileListUpdate envEdit q)) :=
  ⟨by decide, photo_list_invariant envEdit pageOne _ (by decide)⟩

/-- C2, as stated, fails: the storage-delete request of `elOld` completes with status
`200` and a response text that is not JSON; `JSON.parse` throws inside `apiRequest`, the
callback never runs and the element stays in the gallery. -/
theorem deleteFile_status_200_keeps_element :
    elOld ∈ pageOne.photos
      ∧ ¬ (elOld ∉ (xhrEvent envNew (.deleteFile elOld (splitPop '/' elOld.dataSrc))
              (.readystatechange 4 200 .malformed) pageOne).photos ↔ (200 : Nat) = 200) := by
  decide

/-- C2, amended.  `deleteFile(el)` changes neither the gallery nor the hidden field and
sends the storage-delete request.  When that request later completes (in any page `q`
that still shows `el`) with status `s`, `el` is removed if and only if `s = 200` and the
response text parses as JSON; when `s` is not `200` the photo elements and the hidden
field are unchanged, no further request is sent and `Could not delete.` is shown. -/
theorem deleteFile_removes_iff (env : Env) (p q : Page) (el : PhotoEl) (s : Nat) (body : Body)
    (hel : el ∈ q.photos) :
    (deleteFile env el p).photos = p.photos
      ∧ (deleteFile env el p).photoList = p.photoList
      ∧ (deleteFile env el p).sent = p.sent ++
          [{ method := "GET",
             url := env.urlForDeleteS3 ++ "?file_name=" ++ splitPop '/' el.dataSrc,
             cb := .deleteFile el (splitPop '/' el.dataSrc), data := none }]
      ∧ (el ∉ (xhrEvent env (.deleteFile el (splitPop '/' el.dataSrc))
              (.readystatechange 4 s body) q).photos ↔ (s = 200 ∧ body ≠ .malformed))
      ∧ (s ≠ 200 →
          (xhrEvent env (.deleteFile el (splitPop '/' el.dataSrc))
              (.readystatechange 4 s body) q).photos = q.photos
          ∧ (xhrEvent env (.deleteFile el (splitPop '/' el.dataSrc))
              (.readystatechange 4 s body) q).photoList = q.photoList
          ∧ (xhrEvent env (.deleteFile el (splitPop '/' el.dataSrc))
              (.readystatechange 4 s body) q).sent = q.sent
          ∧ (xhrEvent env (.deleteFile el (splitPop '/' el.dataSrc))
              (.readystatechange 4 s body) q).toasts
              = q.toasts ++ [some "Could not delete."]) := by
  refine ⟨rfl, rfl, rfl, ?_, ?_⟩
  · by_cases hs : s = 200
    · subst hs
      rw [xhrEvent_ok]
      cases body with
      | malformed => simp [hel]
      | json r => simp [deleteFile_run_ok_photos, removeEl, List.mem_filter]
    · rw [xhrEvent_failed _ _ _ _ _ hs, deleteFile_run_failed _ _ _ _ _ _ hs]
      simp [hs, hel]
  · intro hs
    rw [xhrEvent_failed _ _ _ _ _ hs, deleteFile_run_failed _ _ _ _ _ _ hs]
    simp

/-- Witness for C2: the delete request of `elOld` completes with status `500`. -/
theorem deleteFile_removes_iff_witness :
    elOld ∈ pageOne.photos
      ∧ elOld ∈ (xhrEvent envEdit (.deleteFile elOld (splitPop '/' elOld.dataSrc))
            (.readystatechange 4 500 (.json Response.empty)) pageOne).photos
      ∧ (xhrEvent envEdit (.deleteFile elOld (splitPop '/' elOld.dataSrc))
            (.readystatechange 4 500 (.json Response.empty)) pageOne).toasts
          = [some "Could not delete."] := by
  have h := deleteFile_removes_iff envEdit pageOne pageOne elOld 500 (.json Response.empty)
    (by decide)
  exact ⟨by decide, by decide, (h.2.2.2.2 (by decide)).2.2.2⟩

/-- C3, as stated, fails, in two ways.  First: the storage request completes with
status `200` and a response text that is not JSON (an empty body, say); the `uploadFile`
callback never runs and no photo element is appended.  Second: the request completes
with status `204` for a `url` holding the character reference `&amp;`; the template
interpolates `url` unescaped into the markup, so the `href` and `src` of the new
element hold `&` where `url` holds `&amp;`, while its `data-src` is `url`. -/
theorem uploadFile_gallery_claim_fails :
    pageOne.hasGallery = true
      ∧ (¬ ∃ newEl : PhotoEl,
          (xhrEvent envNew (.uploadFile catPng "https://bucket/pets5111.png")
              (.readystatechange 4 200 .malformed) pageOne).photos
            = pageOne.photos ++ [newEl])
      ∧ (xhrEvent envNew (.uploadFile catPng "https://bucket/p.png?a=1&amp;b=2")
            (.readystatechange 4 204 .malformed) pageOne).photos
          = [elOld,
             { uid := 1, dataSrc := "https://bucket/p.png?a=1&amp;b=2",
               hrefs := ["https://bucket/p.png?a=1&b=2"],
               imgs := [some "https://bucket/p.png?a=1&b=2"],
               photoKeys := ["1"], within := [] }] := by
  refine ⟨rfl, ?_, by decide⟩
  rintro ⟨newEl, h⟩
  have hlen := congrArg List.length h
  simp [xhrEvent_ok] at hlen

/-- C3, amended.  `uploadFile(file, s3Data, url)` posts the descriptor fields and the
file to the storage endpoint.  Let `url` and the collection name be plain attribute
text (no `&`, double quote, NUL or carriage return, which the template would pass
unescaped into the markup).  When the storage request completes with status `204`, or
with status `200` and a response text that parses as JSON, and `#gallery` exists, the
photo elements afterwards are the previous ones, unchanged and in order, followed by
exactly one new element whose `data-src`, link `href` and image `src` all equal `url`. -/
theorem uploadFile_appends_one (env : Env) (p q : Page) (file : File) (s3Data : S3Data)
    (url : String) (s : Nat) (body : Body) (hg : q.hasGallery = true)
    (hs : s = 204 ∨ (s = 200 ∧ body ≠ .malformed))
    (hurl : PlainAttrText url) (hcoll : PlainAttrText env.collection) :
    (uploadFile file s3Data url p).sent = p.sent ++
        [{ method := "POST", url := s3Data.url, cb := .uploadFile file url,
           data := some (s3Data.fields.map (fun kv => (kv.1, FormValue.text kv.2))
             ++ [("file", FormValue.file file)]) }]
      ∧ ∃ newEl : PhotoEl,
          (xhrEvent env (.uploadFile file url) (.readystatechange 4 s body) q).photos
            = q.photos ++ [newEl]
          ∧ newEl.dataSrc = url ∧ newEl.hrefs = [url] ∧ newEl.imgs = [some url] := by
  refine ⟨rfl,
    { uid := q.nextUid, dataSrc := url, hrefs := [url], imgs := [some url],
      photoKeys := [toString q.photos.length], within := [] }, ?_, rfl, rfl, rfl⟩
  rw [upload_completion_photos, if_pos ⟨hs, hg⟩,
    insertedPhotoEls_plain _ _ _ _ _ hurl hcoll]

/-- Witness for C3: the storage request completes with status `204`. -/
theorem uploadFile_appends_one_witness :
    PlainAttrText "https://bucket/pets5111.png" ∧ PlainAttrText envNew.collection
    ∧ (xhrEvent envNew (.uploadFile catPng "https://bucket/pets5111.png")
        (.readystatechange 4 204 .malformed) pageOne).photos
      = [elOld,
         { uid := 1, dataSrc := "https://bucket/pets5111.png",
           hrefs := ["https://bucket/pets5111.png"],
           imgs := [some "https://bucket/pets5111.png"], photoKeys := ["1"], within := [] }]
    ∧ ∃ newEl : PhotoEl,
        (xhrEvent envNew (.uploadFile catPng "https://bucket/pets5111.png")
            (.readystatechange 4 204 .malformed) pageOne).photos = pageOne.photos ++ [newEl]
        ∧ newEl.dataSrc = "https://bucket/pets5111.png"
        ∧ newEl.hrefs = ["https://bucket/pets5111.png"]
        ∧ newEl.imgs = [some "https://bucket/pets5111.png"] :=
  ⟨by decide, by decide, by decide,
   (uploadFile_appends_one envNew pageOne pageOne catPng { url := "https://bucket", fields := [] }
      "https://bucket/pets5111.png" 204 .malformed (by decide) (Or.inl rfl) (by decide)
      (by decide)).2⟩

/-- C4 fails on the code.  Single-file mode, one photo rendered, one confirmed
`handleFiles` call.  First trace: the delete request completes with status `500`, the
sign request with `200` and the storage request with `204`; the gallery ends with two
photo elements.  Second trace: every request succeeds, but the upload completes before
the delete; the new element is added while the previous one is still rendered. -/
theorem single_mode_two_photos :
    isMultiple envNew = false ∧ pageOne.photos.length = 1
      ∧ (run envNew pageOne
          [.handleFiles [(catPng, { getDate := 5, getMonth := 10 }, 0)] true,
           .xhr 0 (.readystatechange 4 500 .malformed),
           .xhr 1 (.readystatechange 4 200 (.json signOk)),
           .xhr 2 (.readystatechange 4 204 .malformed)]).photos.length = 2
      ∧ (run envNew pageOne
          [.handleFiles [(catPng, { getDate := 5, getMonth := 10 }, 0)] true,
           .xhr 1 (.readystatechange 4 200 (.json signOk)),
           .xhr 2 (.readystatechange 4 204 .malformed)]).photos.length = 2
      ∧ (run envNew pageOne
          [.handleFiles [(catPng, { getDate := 5, getMonth := 10 }, 0)] true,
           .xhr 1 (.readystatechange 4 200 (.json signOk)),
           .xhr 2 (.readystatechange 4 204 .malformed),
           .xhr 0 (.readystatechange 4 200 (.json Response.empty))]).photos.length = 1 := by
  decide

/-- C5, as stated, fails: the request completes (`readyState` 4) with status `200` and
a response text that is not JSON; `JSON.parse` throws and `cb` is not called, so the page
is left as it was whatever the callback. -/
theorem apiRequest_status_200_no_callback :
    apiRequest.handler (.readystatechange 4 200 .malformed) = none
      ∧ xhrEvent envNew (.deleteFile elOld "pets1.png")
          (.readystatechange 4 200 .malformed) pageOne = pageOne := by
  decide

/-- C5, amended.  For a request made through `apiRequest` with callback `cb`: when it
completes (`readyState` 4) with status `200` and a response text that parses as JSON,
`cb` is called with (the parsed value, `200`); when it completes with a status `s` other
than `200`, and likewise when the error handler fires, `cb` is called with (`{}`, the
status), so the two are treated identically; before completion `cb` is not called. -/
theorem apiRequest_callback_arguments (env : Env) (cb : Callback) (p : Page) (r : Response)
    (s : Nat) (body : Body) (hs : s ≠ 200) :
    apiRequest.handler (.readystatechange 4 200 (.json r)) = some (r, 200)
      ∧ apiRequest.handler (.readystatechange 4 s body) = some (Response.empty, s)
      ∧ (∀ e : Nat, apiRequest.handler (.error e) = some (Response.empty, e))
      ∧ (∀ k t : Nat, k ≠ 4 → apiRequest.handler (.readystatechange k t body) = none)
      ∧ xhrEvent env cb (.readystatechange 4 200 (.json r)) p = cb.run env r 200 p
      ∧ xhrEvent env cb (.readystatechange 4 s body) p = cb.run env Response.empty s p
      ∧ xhrEvent env cb (.error s) p = cb.run env Response.empty s p :=
  ⟨rfl, handler_failed s body hs, fun _ => rfl, fun k t hk => handler_pending k t body hk, rfl,
    xhrEvent_failed env cb s body p hs, rfl⟩

/-- Witness for C5: status `404`. -/
theorem apiRequest_callback_arguments_witness :
    apiRequest.handler (.readystatechange 4 404 .malformed) = some (Response.empty, 404)
      ∧ xhrEvent envNew .message (.readystatechange 4 404 .malformed) pageOne
          = xhrEvent envNew .message (.error 404) pageOne := by
  have h := apiRequest_callback_arguments envNew .message pageOne Response.empty 404 .malformed
    (by decide)
  exact ⟨h.2.1, h.2.2.2.2.2.1.trans h.2.2.2.2.2.2.symm⟩

/-- C6. For every file, collection `c`, day `d`, month `m` (from 1 on, `getMonth()`
being `m - 1`) and random double `rand · 2^-1074` in `[0, 1)`, `getSignedRequest` asks for
a signature of the file renamed to `c ++ decimal(d) ++ decimal(m) ++ decimal(n) ++ "." ++ ext`
with `n` the value of `Math.floor(Math.random() * 999)` (the product taken in binary64),
`0 ≤ n ≤ 999`, and `ext` the last piece of the original name split at `.`: it holds no
`.`, and it is what follows the last `.` of the original name. -/
theorem getSignedRequest_file_name (env : Env) (file : File) (p : Page) (d m rand : Nat)
    (hm : 1 ≤ m) (hr : rand < 2 ^ 1074) :
    (getSignedRequest env file { getDate := d, getMonth := m - 1 } rand p).sent = p.sent ++
        [{ method := "GET",
           url := env.urlForSignS3 ++ "?file_name="
             ++ newFileName env file { getDate := d, getMonth := m - 1 } rand
             ++ "&file_type=" ++ file.type,
           cb := .getSignedRequest
             { name := newFileName env file { getDate := d, getMonth := m - 1 } rand,
               type := file.type },
           data := none }]
      ∧ newFileName env file { getDate := d, getMonth := m - 1 } rand
          = env.collection ++ toString d ++ toString m ++ toString (floorRandom999 rand)
            ++ "." ++ splitPop '.' file.name
      ∧ floorRandom999 rand ≤ 999
      ∧ '.' ∉ (splitPop '.' file.name).data
      ∧ ('.' ∈ file.name.data →
          ∃ pre, file.name.data = pre ++ '.' :: (splitPop '.' file.name).data) := by
  refine ⟨rfl, ?_, floorRandom999_le rand hr, (splitPop_spec '.' file.name).1,
    (splitPop_spec '.' file.name).2.1⟩
  simp only [newFileName, Nat.sub_add_cancel hm]

set_option exponentiation.threshold 2000 in
set_option maxRecDepth 100000 in
/-- Witness for C6: `cat.png` in collection `pets` on 5 November with the draw `0.5`. -/
theorem getSignedRequest_file_name_witness :
    newFileName envNew catPng { getDate := 5, getMonth := 11 - 1 } (2 ^ 1073) = "pets511499.png"
      ∧ floorRandom999 (2 ^ 1073) = 499
      ∧ splitPop '.' catPng.name = "png"
      ∧ floorRandom999 (2 ^ 1073) ≤ 999 :=
  ⟨by decide, by decide, by decide,
    (getSignedRequest_file_name envNew catPng pageOne 5 11 (2 ^ 1073) (by decide)
      (Nat.pow_lt_pow_right (by decide) (by decide))).2.2.1⟩

/-- C7. When every rendered photo element contains an `<img>`, `getPhotoList` (and so
the `image_list` callback of the editor) returns a list with one entry per rendered photo
element, in document order, whose entry at 0-based position `i` has title
`Photo` followed by the decimal of `i + 1` and value the `src` property of the first
`<img>` of that element (`srcProperty`: its `src` attribute as the browser resolves
it); the list is empty when no photo element is rendered. -/
theorem getPhotoList_entries (resolve : String → String) (p : Page)
    (h : ∀ el ∈ p.photos, el.imgs ≠ []) :
    image_list resolve p = getPhotoList resolve p
      ∧ ∃ l, getPhotoList resolve p = some l ∧ l.length = p.photos.length
          ∧ (∀ (i : Nat) (el : PhotoEl), p.photos[i]? = some el →
              ∃ img, el.imgs.head? = some img
                ∧ l[i]? = some (PhotoEntry.mk ("Photo" ++ toString (i + 1))
                    (srcProperty resolve img)))
          ∧ (p.photos = [] → l = []) := by
  refine ⟨rfl, ?_⟩
  obtain ⟨l, hl, hlen, hget⟩ := photoListFrom_spec resolve 0 p.photos h
  refine ⟨l, ?_, hlen, ?_, ?_⟩
  · unfold getPhotoList
    split
    · exact hl
    · rename_i h0
      have hnil : p.photos = [] := List.length_eq_zero.mp (by simpa using h0)
      rw [hnil] at hl
      simpa [photoListFrom] using hl.symm
  · intro i el hi
    simpa using hget i el hi
  · intro hnil
    rw [hnil] at hlen
    exact List.length_eq_zero.mp hlen

/-- Witness for C7: the page showing `elOld`. -/
theorem getPhotoList_entries_witness :
    getPhotoList id pageOne = some [{ title := "Photo1", value := "https://bucket/pets1.png" }]
      ∧ ∃ l, getPhotoList id pageOne = some l ∧ l.length = pageOne.photos.length
          ∧ (∀ (i : Nat) (el : PhotoEl), pageOne.photos[i]? = some el →
              ∃ img, el.imgs.head? = some img
                ∧ l[i]? = some (PhotoEntry.mk ("Photo" ++ toString (i + 1))
                    (srcProperty id img)))
          ∧ (pageOne.photos = [] → l = []) :=
  ⟨by decide, (getPhotoList_entries id pageOne (by decide)).2⟩

/-- C8. The unload guard is installed exactly when `docId` is falsy (no document id).
When it is, `onbeforeunload` returns the prompt `Are you sure you want to leave?` if and
only if at least one photo element is rendered and the form has not been submitted; under
the same condition `onunload` sends one storage-delete request for every rendered photo
element, in document order, and otherwise it sends none. -/
theorem unload_guard (env : Env) (p : Page) :
    ((installUnloadGuard env).isSome = true ↔ truthy env.docId = false)
      ∧ (installUnloadGuard env).map (fun g => (g.beforeunload p).1)
          = (if truthy env.docId = true then none else some (onbeforeunload p).1)
      ∧ (installUnloadGuard env).map (fun g => g.unload p)
          = (if truthy env.docId = true then none else some (onunload env p))
      ∧ ((onbeforeunload p).1 = some "Are you sure you want to leave?"
          ↔ (p.photos ≠ [] ∧ p.formSubmitted = false))
      ∧ (onunload env p).sent
          = p.sent ++ (if p.photos ≠ [] ∧ p.formSubmitted = false
              then p.photos.map (storageDeleteRequest env) else []) := by
  refine ⟨?_, ?_, ?_, ?_, ?_⟩
  · unfold installUnloadGuard
    cases truthy env.docId <;> simp
  · unfold installUnloadGuard
    cases truthy env.docId <;> simp
  · unfold installUnloadGuard
    cases truthy env.docId <;> simp
  · unfold onbeforeunload
    by_cases h1 : p.photos = [] <;> cases h2 : p.formSubmitted <;> simp [h1, h2]
  · unfold onunload
    by_cases h1 : p.photos = [] <;> cases h2 : p.formSubmitted <;>
      simp [h1, h2, foldl_deleteFile_sent]

/-- C9, as stated, fails: a document id is set and the storage request completes with
status `200`, but the response text is not JSON; the `uploadFile` callback never runs and
no add-photo request is sent. -/
theorem upload_status_200_no_metadata_request :
    truthy envEdit.docId = true
      ∧ (xhrEvent envEdit (.uploadFile catPng "https://bucket/pets5111.png")
          (.readystatechange 4 200 .malformed) pageOne).sent = pageOne.sent := by
  decide

/-- C9, amended.  On completion of the storage request, `uploadFile` sends the add-photo
(PUT) request for `url` exactly when the completion reaches its callback with a success
status (status `204`, or status `200` with a response text that parses as JSON) and
`docId` is truthy; on completion of the storage-delete request, `deleteFile` sends the
delete-photo request for the element's `data-src` exactly when the status is `200`, the
response text parses as JSON and `docId` is truthy; nothing else is sent.  The photo
elements and the hidden field afterwards do not depend on `docId`. -/
theorem metadata_request_iff (env : Env) (p : Page) (file : File) (url : String)
    (el : PhotoEl) (fileName : String) (s : Nat) (body : Body) :
    (xhrEvent env (.uploadFile file url) (.readystatechange 4 s body) p).sent
        = p.sent ++ (if (s = 204 ∨ (s = 200 ∧ body ≠ .malformed)) ∧ truthy env.docId = true
            then [addPhotoRequest env url] else [])
      ∧ (xhrEvent env (.deleteFile el fileName) (.readystatechange 4 s body) p).sent
        = p.sent ++ (if (s = 200 ∧ body ≠ .malformed) ∧ truthy env.docId = true
            then [deletePhotoRequest env el.dataSrc] else [])
      ∧ ∀ d : Option String,
          (xhrEvent { env with docId := d } (.uploadFile file url)
              (.readystatechange 4 s body) p).photos
            = (xhrEvent env (.uploadFile file url) (.readystatechange 4 s body) p).photos
          ∧ (xhrEvent { env with docId := d } (.uploadFile file url)
              (.readystatechange 4 s body) p).photoList
            = (xhrEvent env (.uploadFile file url) (.readystatechange 4 s body) p).photoList
          ∧ (xhrEvent { env with docId := d } (.deleteFile el fileName)
              (.readystatechange 4 s body) p).photos
            = (xhrEvent env (.deleteFile el fileName) (.readystatechange 4 s body) p).photos
          ∧ (xhrEvent { env with docId := d } (.deleteFile el fileName)
              (.readystatechange 4 s body) p).photoList
            = (xhrEvent env (.deleteFile el fileName) (.readystatechange 4 s body) p).photoList := by
  refine ⟨?_, ?_, fun d => ⟨?_, ?_, ?_, ?_⟩⟩
  · rw [upload_completion_sent]
    split <;> simp [addFileToDb, addPhotoRequest]
  · rw [delete_completion_sent]
    split <;> simp [deleteFileFromDb, deletePhotoRequest]
  · rw [upload_completion_photos, upload_completion_photos]
  · rw [upload_completion_photoList, upload_completion_photoList]
  · rw [delete_completion_photos, delete_completion_photos]
  · rw [delete_completion_photoList, delete_completion_photoList]

/-- C10. A failed step of the upload flow shows a notification and starts no later
step.  If the sign request completes with a status other than `200`, the page changes
only by the toast `Could not get signed URL.` (no storage request is sent).  If the
storage request completes with a status other than `200` and `204`, the page changes only
by the toast `Could not upload file.` (no add-photo request, same photo elements, same
hidden field).  If the add-photo request completes with a status other than `200`,
`alertToast` is called as well, with the `message` member of `{}`. -/
theorem upload_failures_notify (env : Env) (p : Page) (renamedFile file : File) (url : String)
    (s1 s2 s3 : Nat) (b1 b2 b3 : Body) (h1 : s1 ≠ 200) (h2 : s2 ≠ 200) (h2b : s2 ≠ 204)
    (h3 : s3 ≠ 200) :
    xhrEvent env (.getSignedRequest renamedFile) (.readystatechange 4 s1 b1) p
        = { p with toasts := p.toasts ++ [some "Could not get signed URL."] }
      ∧ xhrEvent env (.uploadFile file url) (.readystatechange 4 s2 b2) p
        = { p with toasts := p.toasts ++ [some "Could not upload file."] }
      ∧ xhrEvent env .message (.readystatechange 4 s3 b3) p
        = { p with toasts := p.toasts ++ [none] } := by
  refine ⟨?_, ?_, ?_⟩
  · rw [xhrEvent_failed _ _ _ _ _ h1]
    simp [Callback.run, h1, alertToast]
  · rw [xhrEvent_failed _ _ _ _ _ h2, uploadFile_run_failed _ _ _ _ _ _ h2 h2b]
    rfl
  · rw [xhrEvent_failed _ _ _ _ _ h3]
    rfl

/-- Witness for C10: the sign request answers `403`, the storage request `500` and the
add-photo request `404`. -/
theorem upload_failures_notify_witness :
    (xhrEvent envEdit (.getSignedRequest catPng) (.readystatechange 4 403 .malformed)
        pageOne).sent = []
      ∧ (xhrEvent envEdit (.uploadFile catPng "https://bucket/pets5111.png")
          (.readystatechange 4 500 .malformed) pageOne).toasts = [some "Could not upload file."]
      ∧ (xhrEvent envEdit .message (.readystatechange 4 404 .malformed) pageOne).toasts
          = [none] := by
  have h := upload_failures_notify envEdit pageOne catPng catPng "https://bucket/pets5111.png"
    403 500 404 .malformed .malformed .malformed (by decide) (by decide) (by decide) (by decide)
  exact ⟨by rw [h.1]; rfl, by rw [h.2.1]; rfl, by rw [h.2.2]; rfl⟩

end Photos
